import Mathlib

/-
Verification of the download_song bot core (src/bot.py, src/config.py).

The Python source is shallowly embedded: the pipeline functions become pure
Lean functions over an explicit bot state (the active_downloads dictionary,
the cancellation events, and the filesystem), emitting a trace of observable
effects (user notices, session registration, the fetch call, the send calls,
file removals).  External collaborators (the downloader module and the
Telegram transport) are opaque inputs supplied through a RunEnv record.
-/

namespace DlBot

/-! ## String helpers (Python str.strip / str.lower / substring test) -/

/-- Whitespace characters removed by Python str.strip() (ASCII subset). -/
def pyIsSpace (c : Char) : Bool :=
  c == ' ' || c == '\t' || c == '\n' || c == '\r' || c == '\x0b' || c == '\x0c'

/-- Python text.strip(): drop leading and trailing whitespace. -/
def pyStrip (s : List Char) : List Char :=
  ((s.dropWhile pyIsSpace).reverse.dropWhile pyIsSpace).reverse

/-- Python text.lower(), restricted to the ASCII case mapping. -/
def lowerList (s : List Char) : List Char :=
  s.map Char.toLower

/-- Does the second list start with the first one (literal match)? -/
def startsWithLit : List Char → List Char → Bool
  | [], _ => true
  | _ :: _, [] => false
  | a :: p, b :: s => a == b && startsWithLit p s

/-- Python needle in hay: some suffix of hay starts with needle. -/
def containsSub (needle hay : List Char) : Bool :=
  hay.tails.any fun t => startsWithLit needle t

/-! ## The YouTube URL pattern (bot.py line 30)

re.compile of the pattern with an optional scheme group http:// or
https://, an optional www. group, the domain alternation matching the
literals youtube.com, youtu.be or youtube (the dot in the second literal
is optional in the pattern), then a slash and at least one character that
is not a newline.  search succeeds when the pattern matches starting at
some position of the text, which is modelled by trying every suffix. -/

/-- Candidate remainders after an alternative that consumes a literal. -/
def optAlt (lit : String) (s : List Char) : List (List Char) :=
  if startsWithLit lit.toList s then [s.drop lit.toList.length] else []

/-- Remainders after the optional scheme group. -/
def schemeAlts (s : List Char) : List (List Char) :=
  s :: (optAlt "http://" s ++ optAlt "https://" s)

/-- Remainders after the optional www. group. -/
def wwwAlts (s : List Char) : List (List Char) :=
  s :: optAlt "www." s

/-- Remainders after the mandatory domain alternation. -/
def domAlts (s : List Char) : List (List Char) :=
  optAlt "youtube.com" s ++ optAlt "youtu.be" s ++ optAlt "youtube" s

/-- The trailing part of the pattern: a slash then at least one
character matched by the dot class, which excludes the newline. -/
def matchTail (s : List Char) : Bool :=
  match s with
  | a :: c :: _ => a == '/' && c != '\n'
  | _ => false

/-- Does the pattern match starting exactly at the head of s? -/
def ytMatchFrom (s : List Char) : Bool :=
  (schemeAlts s).any fun s1 =>
    (wwwAlts s1).any fun s2 =>
      (domAlts s2).any matchTail

/-- YOUTUBE_URL_PATTERN.search(text) succeeds (bot.py line 57). -/
def ytSearch (s : List Char) : Bool :=
  s.tails.any ytMatchFrom

/-! ## handle_text (bot.py lines 49-63) -/

/-- The four possible dispatches of the plain-text handler. -/
inductive TextAction
  | greeting
  | video
  | audio
  | invalid
deriving DecidableEq

/-- handle_text: strip the message, answer greetings, otherwise dispatch a
matching YouTube link to video processing when the lowercased text contains
the word video and to audio processing otherwise; reject everything else. -/
def handle_text (text : List Char) : TextAction :=
  if lowerList (pyStrip text) = "hi".toList ∨ lowerList (pyStrip text) = "hello".toList then
    TextAction.greeting
  else if ytSearch (pyStrip text) then
    if containsSub "video".toList (lowerList (pyStrip text)) then TextAction.video
    else TextAction.audio
  else TextAction.invalid

/-! ## The transmission retry loop (bot.py lines 65-127)

safe_send_message, safe_send_audio and safe_send_video share one retry
skeleton: for attempt in range(max_retries), try the send; on TimedOut or
NetworkError sleep and retry unless this was the last attempt, in which
case return False; on any other exception return False at once; on success
return True.  The send operation is an opaque collaborator modelled as a
function from the attempt index to an outcome.  The loop is embedded with
a fuel argument that starts at max_retries and counts the remaining loop
iterations; the function returns the Python boolean result paired with the
number of times the send operation was invoked. -/

/-- Outcome of one invocation of the underlying Telegram send call:
success, a transient transport error (TimedOut or NetworkError), or any
other exception. -/
inductive SendOutcome
  | ok
  | transient
  | fatal
deriving DecidableEq

/-- The retry for-loop, from a given attempt index with the given fuel
(fuel equals max_retries minus the attempt index at every call). -/
def sendLoop (sendFn : Nat → SendOutcome) (m : Nat) : Nat → Nat → Bool × Nat
  | attempt, 0 => (false, attempt)
  | attempt, fuel + 1 =>
    match sendFn attempt with
    | SendOutcome.ok => (true, attempt + 1)
    | SendOutcome.transient =>
      if attempt < m - 1 then sendLoop sendFn m (attempt + 1) fuel
      else (false, attempt + 1)
    | SendOutcome.fatal => (false, attempt + 1)

/-- safe_send_message (bot.py lines 65-81), instrumented with the number of
send invocations. -/
def safe_send_message (sendFn : Nat → SendOutcome) (max_retries : Nat) : Bool × Nat :=
  sendLoop sendFn max_retries 0 max_retries

/-- safe_send_audio (bot.py lines 83-104): identical retry skeleton around
the reply_audio call. -/
def safe_send_audio (sendFn : Nat → SendOutcome) (max_retries : Nat) : Bool × Nat :=
  sendLoop sendFn max_retries 0 max_retries

/-- safe_send_video (bot.py lines 106-127): identical retry skeleton around
the reply_video call. -/
def safe_send_video (sendFn : Nat → SendOutcome) (max_retries : Nat) : Bool × Nat :=
  sendLoop sendFn max_retries 0 max_retries

/-! ## Bot state

The mutable state the pipeline touches: the active_downloads dictionary
(bot.py line 27) mapping a user id to the identity of its threading.Event
cancellation flag, the set/unset state of every such event, and the local
filesystem mapping a path to the size in bytes of an existing file. -/

/-- Point update of a finite-map-as-function. -/
def upd {α β : Type} [DecidableEq α] (m : α → Option β) (k : α) (v : Option β) :
    α → Option β :=
  fun x => if x = k then v else m x

/-- The shared mutable state of the bot process. -/
structure BotState where
  active_downloads : Nat → Option Nat
  tokenSet : Nat → Bool
  fs : String → Option Nat

/-- active_downloads.pop(user_id, None) (bot.py lines 177 and 227): remove
the session entry of the user, silently doing nothing when absent. -/
def finish (m : Nat → Option Nat) (u : Nat) : Nat → Option Nat :=
  upd m u none

/-- active_downloads[user_id] = cancel_flag (bot.py lines 132 and 182):
unconditionally store the fresh cancellation event under the user id,
overwriting any existing entry. -/
def registerSession (st : BotState) (u tok : Nat) : BotState :=
  { st with active_downloads := upd st.active_downloads u (some tok) }

/-! ## Pipeline effects and environment -/

/-- User-facing notices sent by the pipeline; the exact wording of the
Telegram messages is abbreviated to the notice kind it conveys. -/
inductive Notice
  | downloadingAudio
  | downloadingVideo
  | fileNotFound (p : String)
  | tooLarge (sizeBytes : Nat)
  | audioSent
  | videoSent
  | sendFailedAudio
  | sendFailedVideo
  | cancelled
  | downloadFailedAudio
  | downloadFailedVideo
deriving DecidableEq

/-- Observable steps of a pipeline run.  The boolean of fetchCall records
whether the blocking downloader call was dispatched to a worker executor
off the event loop: the source invokes download_audio and download_video
directly inside the async handler (bot.py lines 140 and 190), with no
await, no asyncio.to_thread and no run_in_executor, so the embedding only
ever emits fetchCall false. -/
inductive Effect
  | notice (n : Notice)
  | register (u tok : Nat)
  | fetchCall (offWorker : Bool)
  | sendAudioCall (p : String)
  | sendVideoCall (p : String)
  | removeFile (p : String)
deriving DecidableEq

/-- Result of the external downloader collaborator: a produced artifact
path with its title and elapsed seconds, or a raised exception carrying a
message. -/
inductive FetchResult
  | ok (path : String) (title : String) (elapsed : Nat)
  | err (msg : String)
deriving DecidableEq

/-- Opaque inputs of one pipeline run: what the downloader call would
return, and whether the attachment send (after its internal retries)
reports success. -/
structure RunEnv where
  fetch : FetchResult
  sendOk : Bool

/-- The message of the AttributeError raised by .group(0) when the URL
pattern does not match the text (bot.py lines 136 and 186); punctuation
elided, it contains no occurrence of the word cancelled. -/
def noGroupMsg : String := "NoneType object has no attribute group"

/-- The cancellation test of the except branch (bot.py lines 164 and 214):
the word cancelled occurs in the lowercased exception message. -/
def containsCancelled (msg : String) : Bool :=
  containsSub "cancelled".toList (lowerList msg.toList)

/-- State after the finally block (bot.py lines 168-177 and 218-227):
remove the artifact file if a path was produced and it still exists, then
pop the session entry of the user. -/
def finallyState (st : BotState) (u : Nat) (af : Option String) : BotState :=
  match af with
  | some p =>
    if (st.fs p).isSome then
      { st with fs := upd st.fs p none, active_downloads := finish st.active_downloads u }
    else
      { st with active_downloads := finish st.active_downloads u }
  | none => { st with active_downloads := finish st.active_downloads u }

/-- Effects emitted by the finally block. -/
def finallyTrace (st : BotState) (af : Option String) : List Effect :=
  match af with
  | some p => if (st.fs p).isSome then [Effect.removeFile p] else []
  | none => []

/-! ## The delivery pipelines (bot.py lines 129-177 and 179-227)

The size test at lines 147 and 197 compares getsize divided by 1024*1024
as a float against 50; for sizes below 2 to the 53 the float comparison is
exact, so it is embedded as the integer comparison of the byte count with
50 * 1024 * 1024. -/

/-- process_audio: notice, register the cancellation event, extract the
URL, call the downloader, check existence and size, send the audio, and
run the finally cleanup on every path. -/
def processAudio (st : BotState) (u tok : Nat) (text : List Char) (env : RunEnv) :
    BotState × List Effect :=
  let st1 := registerSession st u tok
  let pre := [Effect.notice Notice.downloadingAudio, Effect.register u tok]
  if ytSearch text then
    match env.fetch with
    | FetchResult.err msg =>
      (finallyState st1 u none,
        pre ++ [Effect.fetchCall false,
          Effect.notice
            (if containsCancelled msg then Notice.cancelled else Notice.downloadFailedAudio)]
          ++ finallyTrace st1 none)
    | FetchResult.ok p _title _elapsed =>
      match st1.fs p with
      | none =>
        (finallyState st1 u (some p),
          pre ++ [Effect.fetchCall false, Effect.notice (Notice.fileNotFound p)]
            ++ finallyTrace st1 (some p))
      | some size =>
        if 50 * 1024 * 1024 < size then
          let st2 := { st1 with fs := upd st1.fs p none }
          (finallyState st2 u (some p),
            pre ++ [Effect.fetchCall false, Effect.notice (Notice.tooLarge size),
              Effect.removeFile p] ++ finallyTrace st2 (some p))
        else
          (finallyState st1 u (some p),
            pre ++ [Effect.fetchCall false, Effect.sendAudioCall p,
              Effect.notice (if env.sendOk then Notice.audioSent else Notice.sendFailedAudio)]
              ++ finallyTrace st1 (some p))
  else
    (finallyState st1 u none,
      pre ++ [Effect.notice
          (if containsCancelled noGroupMsg then Notice.cancelled else Notice.downloadFailedAudio)]
        ++ finallyTrace st1 none)

/-- process_video: same structure as process_audio with the video
downloader, the video send call and the video notices. -/
def processVideo (st : BotState) (u tok : Nat) (text : List Char) (env : RunEnv) :
    BotState × List Effect :=
  let st1 := registerSession st u tok
  let pre := [Effect.notice Notice.downloadingVideo, Effect.register u tok]
  if ytSearch text then
    match env.fetch with
    | FetchResult.err msg =>
      (finallyState st1 u none,
        pre ++ [Effect.fetchCall false,
          Effect.notice
            (if containsCancelled msg then Notice.cancelled else Notice.downloadFailedVideo)]
          ++ finallyTrace st1 none)
    | FetchResult.ok p _title _elapsed =>
      match st1.fs p with
      | none =>
        (finallyState st1 u (some p),
          pre ++ [Effect.fetchCall false, Effect.notice (Notice.fileNotFound p)]
            ++ finallyTrace st1 (some p))
      | some size =>
        if 50 * 1024 * 1024 < size then
          let st2 := { st1 with fs := upd st1.fs p none }
          (finallyState st2 u (some p),
            pre ++ [Effect.fetchCall false, Effect.notice (Notice.tooLarge size),
              Effect.removeFile p] ++ finallyTrace st2 (some p))
        else
          (finallyState st1 u (some p),
            pre ++ [Effect.fetchCall false, Effect.sendVideoCall p,
              Effect.notice (if env.sendOk then Notice.videoSent else Notice.sendFailedVideo)]
              ++ finallyTrace st1 (some p))
  else
    (finallyState st1 u none,
      pre ++ [Effect.notice
          (if containsCancelled noGroupMsg then Notice.cancelled else Notice.downloadFailedVideo)]
        ++ finallyTrace st1 none)

/-- stop (bot.py lines 241-248): look the user up in active_downloads; if
an event is found set it and report that a download was stopped (true),
otherwise leave everything unchanged and report that none was active
(false). -/
def stop (st : BotState) (u : Nat) : BotState × Bool :=
  match st.active_downloads u with
  | some tok =>
    ({ st with tokenSet := fun t => if t = tok then true else st.tokenSet t }, true)
  | none => (st, false)

/-! ## Concrete data for the witnesses and counterexamples -/

/-- Concrete session map with one active user for the witnesses. -/
def mapW : Nat → Option Nat := fun v => if v = 1 then some 5 else none

/-- Concrete bot state with a session for user 1 under event 5. -/
def stW : BotState :=
  ⟨mapW, fun _ => false, fun _ => none⟩

/-- Send operation failing transiently twice then succeeding. -/
def sendTwoFail : Nat → SendOutcome :=
  fun n => if n < 2 then SendOutcome.transient else SendOutcome.ok

/-- Send operation that always fails transiently. -/
def sendAlwaysFail : Nat → SendOutcome :=
  fun _ => SendOutcome.transient

/-- Send operation failing with a non-transient error on its second
attempt after one transient failure. -/
def sendFatalSecond : Nat → SendOutcome :=
  fun n => if n = 0 then SendOutcome.transient else SendOutcome.fatal

/-- Text used by the concrete pipeline runs of the witnesses. -/
def ytText : List Char := "https://youtube.com/watch".toList

/-- Environment whose fetch produces the artifact a.mp3. -/
def envOkW : RunEnv := ⟨FetchResult.ok "a.mp3" "t" 5, true⟩

/-- Bot state whose filesystem holds a.mp3 with 1000 bytes. -/
def stFsW : BotState :=
  ⟨fun _ => none, fun _ => false, fun p => if p = "a.mp3" then some 1000 else none⟩

/-- Environment whose fetch produces the oversized artifact big.mp4. -/
def envBigW : RunEnv := ⟨FetchResult.ok "big.mp4" "t" 5, true⟩

/-- Bot state whose filesystem holds a 60 MB big.mp4. -/
def stBigW : BotState :=
  ⟨fun _ => none, fun _ => false, fun p => if p = "big.mp4" then some (60 * 1024 * 1024) else none⟩

/-- Environment whose fetch raises with a cancellation message. -/
def envCanW : RunEnv := ⟨FetchResult.err "Download CANCELLED by user", false⟩

/-- Environment whose fetch raises with an unrelated message. -/
def envErrW : RunEnv := ⟨FetchResult.err "HTTP error 403", false⟩

/-- Bot state in which user 1 already has an active session under the
cancellation event 7. -/
def stBusyW : BotState :=
  ⟨fun v => if v = 1 then some 7 else none, fun _ => false, fun _ => none⟩

/-! ## Helper lemmas -/

@[simp]
lemma upd_same {α β : Type} [DecidableEq α] (m : α → Option β) (k : α) (v : Option β) :
    upd m k v k = v := by
  simp [upd]

lemma upd_other {α β : Type} [DecidableEq α] (m : α → Option β) (k x : α) (v : Option β)
    (h : x ≠ k) : upd m k v x = m x := by
  simp [upd, h]

@[simp]
lemma finallyState_active (st : BotState) (u : Nat) (af : Option String) :
    (finallyState st u af).active_downloads u = none := by
  cases af with
  | none => simp [finallyState, finish]
  | some p =>
    by_cases h : (st.fs p).isSome <;> simp [finallyState, finish, h]

@[simp]
lemma finallyState_fs (st : BotState) (u : Nat) (p : String) :
    (finallyState st u (some p)).fs p = none := by
  cases hfs : st.fs p <;> simp [finallyState, hfs]

@[simp]
lemma registerSession_fs (st : BotState) (u tok : Nat) :
    (registerSession st u tok).fs = st.fs := by
  simp [registerSession]

lemma noGroupMsg_notCancelled : containsCancelled noGroupMsg = false := by decide

/-! ## Claim theorems -/

/-- Claim C7: the session-release operation finish is idempotent; it
removes the entry of the user when present, leaves the map unchanged when
the user has no entry, and never touches other users. -/
theorem finish_idempotent_c7 (m : Nat → Option Nat) (u : Nat) :
    finish (finish m u) u = finish m u
    ∧ finish m u u = none
    ∧ (m u = none → finish m u = m)
    ∧ (∀ v, v ≠ u → finish m u v = m v) := by
  refine ⟨?_, ?_, ?_, ?_⟩
  · funext v
    by_cases h : v = u <;> simp [finish, upd, h]
  · simp [finish]
  · intro h
    funext v
    by_cases hv : v = u <;> simp [finish, upd, hv, h]
  · intro v hv
    simp [finish, upd, hv]

/-- Witness for C7 at the concrete map mapW and the absent user 2. -/
theorem finish_idempotent_c7_witness :
    finish (finish mapW 2) 2 = finish mapW 2
    ∧ finish mapW 2 2 = none
    ∧ finish mapW 2 = mapW
    ∧ finish mapW 2 1 = mapW 1 :=
  ⟨(finish_idempotent_c7 mapW 2).1, (finish_idempotent_c7 mapW 2).2.1,
    (finish_idempotent_c7 mapW 2).2.2.1 rfl,
    (finish_idempotent_c7 mapW 2).2.2.2 1 (by decide)⟩

/-- Claim C8: stop signals the cancellation event of the user exactly when
a session exists and reports whether one was found; with no session it is
a no-op returning false that changes nothing. -/
theorem stop_cancel_c8 (st : BotState) (u : Nat) :
    (st.active_downloads u = none → stop st u = (st, false))
    ∧ (∀ tok, st.active_downloads u = some tok →
        (stop st u).2 = true
        ∧ (stop st u).1.tokenSet tok = true
        ∧ (stop st u).1.active_downloads = st.active_downloads
        ∧ (stop st u).1.fs = st.fs
        ∧ (∀ t, t ≠ tok → (stop st u).1.tokenSet t = st.tokenSet t)) := by
  constructor
  · intro h
    simp [stop, h]
  · intro tok h
    refine ⟨?_, ?_, ?_, ?_, ?_⟩ <;> simp [stop, h]
    intro t ht
    simp [ht]

/-- Witness for C8: stopping the idle user 2 is a no-op returning false,
stopping user 1 sets exactly its event 5 and returns true. -/
theorem stop_cancel_c8_witness :
    stop stW 2 = (stW, false)
    ∧ (stop stW 1).2 = true
    ∧ (stop stW 1).1.tokenSet 5 = true
    ∧ (stop stW 1).1.tokenSet 9 = stW.tokenSet 9 :=
  ⟨(stop_cancel_c8 stW 2).1 rfl,
    ((stop_cancel_c8 stW 1).2 5 rfl).1,
    ((stop_cancel_c8 stW 1).2 5 rfl).2.1,
    ((stop_cancel_c8 stW 1).2 5 rfl).2.2.2.2 9 (by decide)⟩

/-! ## Retry-loop lemmas -/

/-- If earlier attempts fail transiently and attempt k succeeds within the
budget, the loop stops right after invocation k+1 with success. -/
lemma sendLoop_firstOk (f : Nat → SendOutcome) (m k : Nat) :
    ∀ fuel a, fuel = m - a → a ≤ k → k < m →
      (∀ j, a ≤ j → j < k → f j = SendOutcome.transient) →
      f k = SendOutcome.ok →
      sendLoop f m a fuel = (true, k + 1) := by
  intro fuel
  induction fuel with
  | zero => intro a hf ha hk _ _; omega
  | succ fuel ih =>
    intro a hf ha hk htr hok
    rcases Nat.lt_or_ge a k with h | h
    · have hta : f a = SendOutcome.transient := htr a le_rfl h
      have hlt : a < m - 1 := by omega
      simp only [sendLoop, hta, hlt, if_true]
      exact ih (a + 1) (by omega) (by omega) hk (fun j hj1 hj2 => htr j (by omega) hj2) hok
    · have hak : a = k := by omega
      subst hak
      simp [sendLoop, hok]

/-- If earlier attempts fail transiently and attempt k fails with a
non-transient error within the budget, the loop aborts right after
invocation k+1 with failure. -/
lemma sendLoop_firstFatal (f : Nat → SendOutcome) (m k : Nat) :
    ∀ fuel a, fuel = m - a → a ≤ k → k < m →
      (∀ j, a ≤ j → j < k → f j = SendOutcome.transient) →
      f k = SendOutcome.fatal →
      sendLoop f m a fuel = (false, k + 1) := by
  intro fuel
  induction fuel with
  | zero => intro a hf ha hk _ _; omega
  | succ fuel ih =>
    intro a hf ha hk htr hfa
    rcases Nat.lt_or_ge a k with h | h
    · have hta : f a = SendOutcome.transient := htr a le_rfl h
      have hlt : a < m - 1 := by omega
      simp only [sendLoop, hta, hlt, if_true]
      exact ih (a + 1) (by omega) (by omega) hk (fun j hj1 hj2 => htr j (by omega) hj2) hfa
    · have hak : a = k := by omega
      subst hak
      simp [sendLoop, hfa]

/-- If every attempt fails transiently, the loop exhausts the budget and
returns failure after exactly m invocations. -/
lemma sendLoop_allTransient (f : Nat → SendOutcome) (m : Nat)
    (htr : ∀ j, f j = SendOutcome.transient) :
    ∀ fuel a, fuel = m - a → a < m → sendLoop f m a fuel = (false, m) := by
  intro fuel
  induction fuel with
  | zero => intro a hf ha; omega
  | succ fuel ih =>
    intro a hf ha
    by_cases hlt : a < m - 1
    · simp only [sendLoop, htr a, hlt, if_true]
      exact ih (a + 1) (by omega) (by omega)
    · have : a + 1 = m := by omega
      simp [sendLoop, htr a, hlt, this]

/-- Every attempt the loop invokes before its last one failed transiently:
a retry happens only after a transient transport error. -/
lemma sendLoop_retryOnlyTransient (f : Nat → SendOutcome) (m : Nat) :
    ∀ fuel a, (∀ j, a ≤ j → j + 1 < (sendLoop f m a fuel).2 → f j = SendOutcome.transient) := by
  intro fuel
  induction fuel with
  | zero =>
    intro a j haj hj
    simp only [sendLoop] at hj
    omega
  | succ fuel ih =>
    intro a j haj hj
    cases hfa : f a with
    | ok => simp only [sendLoop, hfa] at hj; omega
    | fatal => simp only [sendLoop, hfa] at hj; omega
    | transient =>
      by_cases hlt : a < m - 1
      · simp only [sendLoop, hfa, hlt, if_true] at hj
        rcases Nat.eq_or_lt_of_le haj with h | h
        · exact h ▸ hfa
        · exact ih (a + 1) j h hj
      · simp only [sendLoop, hfa, hlt, if_false] at hj
        omega

/-- Claim C3: the retry helper returns success as soon as an attempt
succeeds, after exactly k+1 invocations when the first k fail transiently;
in particular two transient failures then a success yield success after
exactly 3 invocations, and a send that always fails transiently with a
budget of 3 yields failure after exactly 3 invocations, with no exception
escaping (the helper is a total function into a boolean result). -/
theorem sendRetry_firstSuccess_c3 (f : Nat → SendOutcome) :
    (∀ m k, k < m → (∀ j, j < k → f j = SendOutcome.transient) →
      f k = SendOutcome.ok → safe_send_message f m = (true, k + 1))
    ∧ (f 0 = SendOutcome.transient → f 1 = SendOutcome.transient →
        f 2 = SendOutcome.ok → safe_send_message f 3 = (true, 3))
    ∧ ((∀ j, f j = SendOutcome.transient) → safe_send_message f 3 = (false, 3)) := by
  refine ⟨?_, ?_, ?_⟩
  · intro m k hk htr hok
    exact sendLoop_firstOk f m k m 0 (by omega) (by omega) hk (fun j _ hj => htr j hj) hok
  · intro h0 h1 h2
    refine sendLoop_firstOk f 3 2 3 0 (by omega) (by omega) (by omega) ?_ h2
    intro j _ hj
    interval_cases j
    · exact h0
    · exact h1
  · intro htr
    exact sendLoop_allTransient f 3 htr 3 0 (by omega) (by omega)

/-- Witness for C3 at the two concrete send operations. -/
theorem sendRetry_firstSuccess_c3_witness :
    safe_send_message sendTwoFail 3 = (true, 3)
    ∧ safe_send_message sendAlwaysFail 3 = (false, 3) :=
  ⟨(sendRetry_firstSuccess_c3 sendTwoFail).2.1 rfl rfl rfl,
    (sendRetry_firstSuccess_c3 sendAlwaysFail).2.2 (fun _ => rfl)⟩

/-- Claim C4: a retry happens only after a transient transport error;
an attempt failing with any other error aborts the loop at once, reporting
failure after exactly k+1 invocations without re-raising, and the audio
and video senders share the identical retry behaviour. -/
theorem sendRetry_abortOnFatal_c4 (f : Nat → SendOutcome) (m k : Nat) :
    ((∀ j, j < k → f j = SendOutcome.transient) → k < m →
      f k = SendOutcome.fatal → safe_send_message f m = (false, k + 1))
    ∧ (∀ j, j + 1 < (safe_send_message f m).2 → f j = SendOutcome.transient)
    ∧ safe_send_audio f m = safe_send_message f m
    ∧ safe_send_video f m = safe_send_message f m := by
  refine ⟨?_, ?_, rfl, rfl⟩
  · intro htr hk hfa
    exact sendLoop_firstFatal f m k m 0 (by omega) (by omega) hk (fun j _ hj => htr j hj) hfa
  · intro j hj
    exact sendLoop_retryOnlyTransient f m m 0 j (by omega) hj

/-- Witness for C4: the fatal second attempt aborts after exactly 2
invocations, and the only attempt preceding it was transient. -/
theorem sendRetry_abortOnFatal_c4_witness :
    safe_send_message sendFatalSecond 3 = (false, 2)
    ∧ sendFatalSecond 0 = SendOutcome.transient :=
  ⟨(sendRetry_abortOnFatal_c4 sendFatalSecond 3 1).1
      (fun j hj => by interval_cases j; rfl) (by decide) rfl,
    (sendRetry_abortOnFatal_c4 sendFatalSecond 3 1).2.1 0 (by decide)⟩

/-- Claim C2: every pipeline run, whatever its exit path, ends with the
session entry of the user removed, and with the run's artifact file absent
from the filesystem whenever the fetch was reached and produced one. -/
theorem pipeline_cleanup_c2 (st : BotState) (u tok : Nat) (text : List Char) (env : RunEnv) :
    (processAudio st u tok text env).1.active_downloads u = none
    ∧ (∀ p t e, ytSearch text = true → env.fetch = FetchResult.ok p t e →
        (processAudio st u tok text env).1.fs p = none)
    ∧ (processVideo st u tok text env).1.active_downloads u = none
    ∧ (∀ p t e, ytSearch text = true → env.fetch = FetchResult.ok p t e →
        (processVideo st u tok text env).1.fs p = none) := by
  refine ⟨?_, ?_, ?_, ?_⟩
  · simp only [processAudio]
    split <;> [skip; simp]
    split <;> [simp; skip]
    split
    · simp
    · split <;> simp
  · intro p t e hyt hf
    simp only [processAudio, hyt, hf, if_true]
    split
    · simp
    · split <;> simp
  · simp only [processVideo]
    split <;> [skip; simp]
    split <;> [simp; skip]
    split
    · simp
    · split <;> simp
  · intro p t e hyt hf
    simp only [processVideo, hyt, hf, if_true]
    split
    · simp
    · split <;> simp

/-- Witness for C2 at a successful concrete audio run. -/
theorem pipeline_cleanup_c2_witness :
    (processAudio stFsW 1 8 ytText envOkW).1.active_downloads 1 = none
    ∧ (processAudio stFsW 1 8 ytText envOkW).1.fs "a.mp3" = none :=
  ⟨(pipeline_cleanup_c2 stFsW 1 8 ytText envOkW).1,
    (pipeline_cleanup_c2 stFsW 1 8 ytText envOkW).2.1 "a.mp3" "t" 5 (by decide) rfl⟩

/-- Claim C5: when the fetched artifact exists with a byte count above the
50 MB ceiling, the pipeline reports the too-large notice, deletes the
artifact, releases the session slot, and never invokes the audio or video
send operation. -/
theorem pipeline_tooLarge_c5 (st : BotState) (u tok : Nat) (text : List Char)
    (env : RunEnv) (p t : String) (e size : Nat)
    (hyt : ytSearch text = true) (hf : env.fetch = FetchResult.ok p t e)
    (hfs : st.fs p = some size) (hsz : 50 * 1024 * 1024 < size) :
    (Effect.notice (Notice.tooLarge size) ∈ (processAudio st u tok text env).2
      ∧ (∀ q, Effect.sendAudioCall q ∉ (processAudio st u tok text env).2)
      ∧ (∀ q, Effect.sendVideoCall q ∉ (processAudio st u tok text env).2)
      ∧ (processAudio st u tok text env).1.fs p = none
      ∧ (processAudio st u tok text env).1.active_downloads u = none)
    ∧ (Effect.notice (Notice.tooLarge size) ∈ (processVideo st u tok text env).2
      ∧ (∀ q, Effect.sendAudioCall q ∉ (processVideo st u tok text env).2)
      ∧ (∀ q, Effect.sendVideoCall q ∉ (processVideo st u tok text env).2)
      ∧ (processVideo st u tok text env).1.fs p = none
      ∧ (processVideo st u tok text env).1.active_downloads u = none) := by
  have hfs1 : (registerSession st u tok).fs p = some size := by
    simpa using hfs
  constructor
  · simp only [processAudio, hyt, hf, if_true, hfs1, hsz]
    refine ⟨by simp, ?_, ?_, by simp, by simp⟩ <;>
      · intro q
        simp [finallyTrace]
  · simp only [processVideo, hyt, hf, if_true, hfs1, hsz]
    refine ⟨by simp, ?_, ?_, by simp, by simp⟩ <;>
      · intro q
        simp [finallyTrace]

/-- Witness for C5 at the concrete 60 MB audio run. -/
theorem pipeline_tooLarge_c5_witness :
    Effect.notice (Notice.tooLarge (60 * 1024 * 1024)) ∈ (processAudio stBigW 1 8 ytText envBigW).2
    ∧ Effect.sendAudioCall "big.mp4" ∉ (processAudio stBigW 1 8 ytText envBigW).2
    ∧ (processAudio stBigW 1 8 ytText envBigW).1.fs "big.mp4" = none :=
  ⟨(pipeline_tooLarge_c5 stBigW 1 8 ytText envBigW "big.mp4" "t" 5 (60 * 1024 * 1024)
      (by decide) rfl rfl (by decide)).1.1,
    (pipeline_tooLarge_c5 stBigW 1 8 ytText envBigW "big.mp4" "t" 5 (60 * 1024 * 1024)
      (by decide) rfl rfl (by decide)).1.2.1 "big.mp4",
    (pipeline_tooLarge_c5 stBigW 1 8 ytText envBigW "big.mp4" "t" 5 (60 * 1024 * 1024)
      (by decide) rfl rfl (by decide)).1.2.2.2.1⟩

/-- Claim C6: when the fetch raises, the pipeline reports the cancelled
notice exactly when the lowercased error message contains the word
cancelled and the generic failure notice otherwise, and the fetch is
invoked exactly once (never retried); the exception does not escape. -/
theorem pipeline_fetchFail_c6 (st : BotState) (u tok : Nat) (text : List Char)
    (env : RunEnv) (msg : String)
    (hyt : ytSearch text = true) (hf : env.fetch = FetchResult.err msg) :
    ((Effect.notice Notice.cancelled ∈ (processAudio st u tok text env).2
        ↔ containsCancelled msg = true)
      ∧ (containsCancelled msg = false →
          Effect.notice Notice.downloadFailedAudio ∈ (processAudio st u tok text env).2)
      ∧ (processAudio st u tok text env).2.count (Effect.fetchCall false) = 1)
    ∧ ((Effect.notice Notice.cancelled ∈ (processVideo st u tok text env).2
        ↔ containsCancelled msg = true)
      ∧ (containsCancelled msg = false →
          Effect.notice Notice.downloadFailedVideo ∈ (processVideo st u tok text env).2)
      ∧ (processVideo st u tok text env).2.count (Effect.fetchCall false) = 1) := by
  constructor
  · simp only [processAudio, hyt, hf, if_true]
    refine ⟨?_, ?_, ?_⟩
    · cases hc : containsCancelled msg <;> simp [finallyTrace, hc]
    · intro hc
      simp [finallyTrace, hc]
    · cases hc : containsCancelled msg <;>
        simp [finallyTrace, hc, List.count_cons, List.count_append]
  · simp only [processVideo, hyt, hf, if_true]
    refine ⟨?_, ?_, ?_⟩
    · cases hc : containsCancelled msg <;> simp [finallyTrace, hc]
    · intro hc
      simp [finallyTrace, hc]
    · cases hc : containsCancelled msg <;>
        simp [finallyTrace, hc, List.count_cons, List.count_append]

/-- Witness for C6: a cancellation message yields the cancelled notice and
an unrelated message yields the generic failure notice, each with exactly
one fetch invocation. -/
theorem pipeline_fetchFail_c6_witness :
    Effect.notice Notice.cancelled ∈ (processAudio stFsW 1 8 ytText envCanW).2
    ∧ Effect.notice Notice.downloadFailedAudio ∈ (processAudio stFsW 1 8 ytText envErrW).2
    ∧ (processAudio stFsW 1 8 ytText envErrW).2.count (Effect.fetchCall false) = 1 :=
  ⟨((pipeline_fetchFail_c6 stFsW 1 8 ytText envCanW "Download CANCELLED by user"
      (by decide) rfl).1.1).mpr (by decide),
    (pipeline_fetchFail_c6 stFsW 1 8 ytText envErrW "HTTP error 403"
      (by decide) rfl).1.2.1 (by decide),
    (pipeline_fetchFail_c6 stFsW 1 8 ytText envErrW "HTTP error 403"
      (by decide) rfl).1.2.2⟩

/-- Counterexample to claim C1 as stated: although user 1 already has an
active session (event 7), a new process_audio run for user 1 is not
rejected — it registers a second, replacing session under the fresh event
8 and proceeds to invoke the fetch. -/
theorem session_rejected_c1_cex :
    stBusyW.active_downloads 1 = some 7
    ∧ Effect.register 1 8 ∈ (processAudio stBusyW 1 8 ytText envErrW).2
    ∧ Effect.fetchCall false ∈ (processAudio stBusyW 1 8 ytText envErrW).2 := by
  decide

/-- Claim C1 as amended: process_audio and process_video never reject a
request; they unconditionally overwrite the session entry of the user with
the fresh cancellation event (discarding any prior token handle) and, when
the text carries a YouTube link, proceed to invoke the fetch. -/
theorem session_overwrite_c1_amended (st : BotState) (u tok : Nat) (text : List Char)
    (env : RunEnv) :
    (registerSession st u tok).active_downloads u = some tok
    ∧ Effect.register u tok ∈ (processAudio st u tok text env).2
    ∧ Effect.register u tok ∈ (processVideo st u tok text env).2
    ∧ (ytSearch text = true → Effect.fetchCall false ∈ (processAudio st u tok text env).2)
    ∧ (ytSearch text = true → Effect.fetchCall false ∈ (processVideo st u tok text env).2) := by
  refine ⟨by simp [registerSession], ?_, ?_, ?_, ?_⟩
  · simp only [processAudio]
    split <;> [skip; simp]
    split <;> [simp; skip]
    split
    · simp
    · split <;> simp
  · simp only [processVideo]
    split <;> [skip; simp]
    split <;> [simp; skip]
    split
    · simp
    · split <;> simp
  · intro hyt
    simp only [processAudio, hyt, if_true]
    split <;> [simp; skip]
    split
    · simp
    · split <;> simp
  · intro hyt
    simp only [processVideo, hyt, if_true]
    split <;> [simp; skip]
    split
    · simp
    · split <;> simp

/-- Witness for the amended C1 at the concrete busy state. -/
theorem session_overwrite_c1_amended_witness :
    (registerSession stBusyW 1 8).active_downloads 1 = some 8
    ∧ Effect.register 1 8 ∈ (processAudio stBusyW 1 8 ytText envErrW).2
    ∧ Effect.fetchCall false ∈ (processAudio stBusyW 1 8 ytText envErrW).2 :=
  ⟨(session_overwrite_c1_amended stBusyW 1 8 ytText envErrW).1,
    (session_overwrite_c1_amended stBusyW 1 8 ytText envErrW).2.1,
    (session_overwrite_c1_amended stBusyW 1 8 ytText envErrW).2.2.2.1 (by decide)⟩

/-- Claim C9, checked against the code: in a concrete successful audio run
and a concrete successful video run, the downloader call appears in the
trace as a direct synchronous invocation on the handler's own task
(fetchCall false) and no worker-dispatched invocation (fetchCall true)
ever occurs: bot.py lines 140 and 190 call download_audio and
download_video directly inside the async handler, so the event loop is
blocked for the whole fetch. -/
theorem fetch_blocksLoop_c9 :
    Effect.fetchCall false ∈ (processAudio stFsW 1 8 ytText envOkW).2
    ∧ Effect.fetchCall true ∉ (processAudio stFsW 1 8 ytText envOkW).2
    ∧ Effect.fetchCall false ∈ (processVideo stFsW 1 8 ytText envOkW).2
    ∧ Effect.fetchCall true ∉ (processVideo stFsW 1 8 ytText envOkW).2 := by
  decide

/-! ## Length bounds on the URL pattern

Any text matched by the pattern is at least 9 characters long (shortest
witness: the domain literal youtube, a slash and one character), so a
stripped message equal to hi or hello can never reach the link branch of
handle_text. -/

lemma startsWithLit_length : ∀ p s : List Char, startsWithLit p s = true → p.length ≤ s.length
  | [], _, _ => Nat.zero_le _
  | _ :: _, [], h => by simp [startsWithLit] at h
  | a :: p, b :: s, h => by
    simp only [startsWithLit, Bool.and_eq_true] at h
    have := startsWithLit_length p s h.2
    simpa using this

lemma mem_optAlt_length {lit : String} {s r : List Char} (h : r ∈ optAlt lit s) :
    r.length + lit.toList.length = s.length := by
  simp only [optAlt] at h
  split at h
  next hp =>
    have hle := startsWithLit_length _ _ hp
    simp only [List.mem_singleton] at h
    subst h
    simp only [List.length_drop]
    omega
  next => simp at h

lemma mem_schemeAlts_length {s s1 : List Char} (h : s1 ∈ schemeAlts s) :
    s1.length ≤ s.length := by
  simp only [schemeAlts, List.mem_cons, List.mem_append] at h
  rcases h with h | h | h
  · exact h ▸ le_rfl
  · have := mem_optAlt_length h
    omega
  · have := mem_optAlt_length h
    omega

lemma mem_wwwAlts_length {s s1 : List Char} (h : s1 ∈ wwwAlts s) :
    s1.length ≤ s.length := by
  simp only [wwwAlts, List.mem_cons] at h
  rcases h with h | h
  · exact h ▸ le_rfl
  · have := mem_optAlt_length h
    omega

lemma mem_domAlts_length {s t : List Char} (h : t ∈ domAlts s) :
    t.length + 7 ≤ s.length := by
  simp only [domAlts, List.mem_append] at h
  rcases h with (h | h) | h
  · have := mem_optAlt_length h
    have hl : ("youtube.com".toList).length = 11 := rfl
    omega
  · have := mem_optAlt_length h
    have hl : ("youtu.be".toList).length = 8 := rfl
    omega
  · have := mem_optAlt_length h
    have hl : ("youtube".toList).length = 7 := rfl
    omega

lemma matchTail_length {t : List Char} (h : matchTail t = true) : 2 ≤ t.length := by
  match t with
  | [] => simp [matchTail] at h
  | [_] => simp [matchTail] at h
  | _ :: _ :: _ => simp

lemma ytMatchFrom_length {s : List Char} (h : ytMatchFrom s = true) : 9 ≤ s.length := by
  simp only [ytMatchFrom, List.any_eq_true] at h
  obtain ⟨s1, hs1, h⟩ := h
  obtain ⟨s2, hs2, h⟩ := h
  obtain ⟨t, ht, htail⟩ := h
  have l1 := mem_schemeAlts_length hs1
  have l2 := mem_wwwAlts_length hs2
  have l3 := mem_domAlts_length ht
  have l4 := matchTail_length htail
  omega

lemma ytSearch_length {s : List Char} (h : ytSearch s = true) : 9 ≤ s.length := by
  simp only [ytSearch, List.any_eq_true] at h
  obtain ⟨t, ht, hm⟩ := h
  have hsuf : t <:+ s := (List.mem_tails t s).mp ht
  have := hsuf.length_le
  have := ytMatchFrom_length hm
  omega

/-- Counterexample to claim C10 as stated: the message consisting of the
bare YouTube link https followed by youtube.com slash video, with no extra
text, matches the URL pattern yet is dispatched to video processing, not
audio, because the link itself contains the substring video. -/
theorem dispatch_bareLink_c10_cex :
    ytSearch (pyStrip "https://youtube.com/video".toList) = true
    ∧ handle_text "https://youtube.com/video".toList = TextAction.video
    ∧ handle_text "https://youtube.com/video".toList ≠ TextAction.audio := by
  decide

/-- Claim C10 as amended: a plain text message matching the YouTube URL
pattern is dispatched to video processing if and only if its lowercased
stripped text contains the substring video, and to audio processing
otherwise — so a bare link is downloaded as audio exactly when the link
itself does not contain that substring. -/
theorem dispatch_video_c10_amended (text : List Char)
    (hyt : ytSearch (pyStrip text) = true) :
    (handle_text text = TextAction.video
      ↔ containsSub "video".toList (lowerList (pyStrip text)) = true)
    ∧ (handle_text text = TextAction.audio
      ↔ containsSub "video".toList (lowerList (pyStrip text)) = false) := by
  have hlen : 9 ≤ (pyStrip text).length := ytSearch_length hyt
  have hgr : ¬(lowerList (pyStrip text) = "hi".toList
      ∨ lowerList (pyStrip text) = "hello".toList) := by
    rintro (h | h)
    · have hl := congrArg List.length h
      simp only [lowerList, List.length_map] at hl
      have h2 : ("hi".toList).length = 2 := rfl
      omega
    · have hl := congrArg List.length h
      simp only [lowerList, List.length_map] at hl
      have h5 : ("hello".toList).length = 5 := rfl
      omega
  rw [handle_text, if_neg hgr, if_pos hyt]
  cases hc : containsSub "video".toList (lowerList (pyStrip text)) <;> simp [hc]

/-- Witness for the amended C10: a link without the substring video is
dispatched to audio processing. -/
theorem dispatch_video_c10_amended_witness :
    handle_text "https://youtube.com/watch".toList = TextAction.audio :=
  ((dispatch_video_c10_amended "https://youtube.com/watch".toList (by decide)).2).mpr
    (by decide)

end DlBot
